import Mathlib

/-!
# iio_cmdsrv: a shallow embedding of `src/server/iio_cmdsrv.c`

The command server reads text lines from standard input, resolves a device
name to its sysfs paths, performs an attribute access or a buffer transfer and
prints a status followed by a payload.

Everything outside the process (sysfs files, the character device, the name
resolver of `iio_utils.h`) is represented by explicit outcome values: every
function below takes the results of the library calls it makes as arguments
and returns its return value, the bytes it prints, the new state and the trace
of operations it performed.
-/

namespace IioCmdsrv

/-- C strings and byte buffers. -/
abbrev Str := List Char

def PATH_MAX : Nat := 4096
def MAX_STR_LEN : Nat := 1024
def CURR_VERSION : Str := "0.3".toList
def DBFS_REG_ATTR : Str := "direct_reg_access".toList

def EAGAIN : Int := 11
def ENOMEM : Int := 12
def EFAULT : Int := 14
def ENODEV : Int := 19
def EINVAL : Int := 22

/-- The text `printf("%d", x)` produces. -/
def fmt_d (x : Int) : Str :=
  if x < 0 then '-' :: Nat.toDigits 10 x.natAbs else Nat.toDigits 10 x.toNat

/-- `#define REPORT_RETVAL(x) fprintf(stdout, "%d\n\n\n", x)`. -/
def REPORT_RETVAL (x : Int) : Str := fmt_d x ++ "\n\n\n".toList

/-- The part of a char array that `%s` prints: everything before the first NUL. -/
def c_str (s : Str) : Str := s.takeWhile (fun c => c != '\x00')

/-- `strncmp(a, b, n) == 0` on NUL-free strings. -/
def strncmp_eq (a b : Str) (n : Nat) : Bool := a.take n == b.take n

/-- `snprintf(dst, size, ...)` for the already formatted text `s`: the return value
(the full length of `s`) and what is stored in `dst` (at most `size - 1` chars). -/
def snprintf (size : Nat) (s : Str) : Int × Str := ((s.length : Int), s.take (size - 1))

/-- External operations, in the order the program performs them. -/
inductive Op where
  | lookup (name : Str)
  | sysfs_read (attr : Str)
  | sysfs_write (attr : Str) (v : Int)
  | endpoint_open
  | endpoint_read (n : Int)
  | endpoint_write (n : Int)
  | file_read (path : Str)
  | file_write (path : Str) (text : Str)
  | list_dir (path : Str)
  deriving DecidableEq

/-! ## set_dev_paths -/

/-- The five global char arrays. -/
structure Paths where
  dev_dir_name : Str
  buf_dir_name : Str
  dbfs_dir_name : Str
  buffer_access : Str
  last_device_name : Str
  deriving DecidableEq

/-- Zero-initialised globals. -/
def Paths.init : Paths := ⟨[], [], [], [], []⟩

/-- The format `"%siio:device%d"` and its three siblings. -/
def fmt_dev_dir (iio_dir : Str) (dev_num : Int) : Str :=
  iio_dir ++ "iio:device".toList ++ fmt_d dev_num
def fmt_buf_dir (iio_dir : Str) (dev_num : Int) : Str :=
  iio_dir ++ "iio:device".toList ++ fmt_d dev_num ++ "/buffer".toList
def fmt_buffer_access (dev_num : Int) : Str :=
  "/dev/iio:device".toList ++ fmt_d dev_num
def fmt_dbfs_dir (dev_num : Int) : Str :=
  "/sys/kernel/debug/iio/iio:device".toList ++ fmt_d dev_num

structure SetResult where
  ret : Int
  g : Paths
  ops : List Op
  deriving DecidableEq

/-- Embedding of `set_dev_paths`.  `iio_dir` and `find_type_by_name` come from
`iio_utils.h` and are parameters. -/
def set_dev_paths (iio_dir : Str) (find_type_by_name : Str → Str → Int)
    (g : Paths) (device_name : Str) : SetResult :=
  if strncmp_eq device_name g.last_device_name PATH_MAX = false then
    let dev_num := find_type_by_name device_name "iio:device".toList
    let ops := [Op.lookup device_name]
    if dev_num < 0 then
      ⟨-ENODEV, g, ops⟩
    else
      let r := snprintf PATH_MAX (fmt_buf_dir iio_dir dev_num)
      let g1 := { g with buf_dir_name := r.2 }
      if r.1 ≥ (PATH_MAX : Int) then
        ⟨-EFAULT, g1, ops⟩
      else
        let g2 := { g1 with dev_dir_name := (snprintf PATH_MAX (fmt_dev_dir iio_dir dev_num)).2 }
        let g3 := { g2 with buffer_access := (snprintf PATH_MAX (fmt_buffer_access dev_num)).2 }
        let g4 := { g3 with dbfs_dir_name := (snprintf PATH_MAX (fmt_dbfs_dir dev_num)).2 }
        ⟨0, { g4 with last_device_name := device_name }, ops⟩
  else
    ⟨0, g, []⟩

/-! ## read_devattr_stdout and write_devattr -/

/-- What `fopen(path, "r")` followed by one `fread` of `MAX_STR_LEN` bytes meets. -/
inductive FileRead where
  | open_failed (errno : Nat)
  | opened (content : Str) (ferror feof : Bool)
  deriving DecidableEq

structure ReadResult where
  ret : Int
  out : Str
  /-- indices of `buf` that are assigned to -/
  buf_writes : List Nat
  ops : List Op
  deriving DecidableEq

/-- Embedding of `read_devattr_stdout`.  `errno` is the value left in `errno` by
earlier calls (it is what the truncation branch reports); `fopen_read` gives the
outcome of opening and reading a path.  When the assignment `buf[len] = 0` falls
outside `buf` the printed text is taken to end with the array. -/
def read_devattr_stdout (errno : Nat) (fopen_read : Str → FileRead)
    (basedir filename : Str) : ReadResult :=
  let r := snprintf PATH_MAX (basedir ++ '/' :: filename)
  if r.1 ≥ (PATH_MAX : Int) then
    ⟨-(errno : Int), [], [], []⟩
  else
    match fopen_read r.2 with
    | .open_failed e => ⟨-(e : Int), [], [], [Op.file_read r.2]⟩
    | .opened content ferror feof =>
      let buf := content.take MAX_STR_LEN
      let len := buf.length
      if len ≠ 0 then
        let nl := buf.getLast? = some '\n'
        let buf1 := if nl then buf.set (len - 1) '\x00' else buf
        let writes := (if nl then [len - 1] else []) ++ [len]
        ⟨r.1, "0\n".toList ++ c_str buf1 ++ "\n".toList, writes, [Op.file_read r.2]⟩
      else if ferror && !feof then
        ⟨r.1, "-1\n".toList, [], [Op.file_read r.2]⟩
      else
        ⟨r.1, [], [], [Op.file_read r.2]⟩

/-- What `fopen(path, "w")` followed by one `fprintf` meets. -/
inductive FileWrite where
  | open_failed (errno : Nat)
  | printf_failed (ret : Int)
  | written
  deriving DecidableEq

structure WriteResult where
  ret : Int
  ops : List Op
  deriving DecidableEq

/-- Embedding of `write_devattr`; `str2 = none` is the NULL pointer.  A successful
`fprintf` returns the number of bytes it printed. -/
def write_devattr (errno : Nat) (fopen_write : Str → Str → FileWrite)
    (basedir attr str : Str) (str2 : Option Str) : WriteResult :=
  let r := snprintf PATH_MAX (basedir ++ '/' :: attr)
  if r.1 ≥ (PATH_MAX : Int) then
    ⟨-(errno : Int), []⟩
  else
    let text := match str2 with
      | none => str ++ "\n".toList
      | some s2 => str ++ ' ' :: s2 ++ "\n".toList
    match fopen_write r.2 text with
    | .open_failed e => ⟨-(e : Int), [Op.file_write r.2 text]⟩
    | .printf_failed ret => ⟨ret, [Op.file_write r.2 text]⟩
    | .written => ⟨(text.length : Int), [Op.file_write r.2 text]⟩

/-! ## The buffer functions -/

/-- The part of the device the buffer functions act on: the content of the sysfs
files `buffer/enable` and `buffer/length`. -/
structure DevState where
  enable : Bool
  length : Int
  deriving DecidableEq

/-- Result of a `read` or `write` system call. -/
inductive Sys where
  | done (bytes : Str)
  | err (errno : Nat)
  deriving DecidableEq

/-- Outcomes of the library and system calls the buffer functions make, one field
per call site.  A `write_sysfs_int` outcome is the value the call returns; the
write takes effect exactly when it is not negative. -/
structure BufOutcomes where
  /-- errno of a failing `read_sysfs_posint("enable")`, `none` when it succeeds -/
  enable_query : Option Nat
  pre_disable : Int
  length_write : Int
  enable_write : Int
  malloc_ok : Bool
  /-- errno of a failing `open(buffer_access)`, `none` when it succeeds -/
  open_errno : Option Nat
  /-- the bytes `read` delivers, or its errno -/
  read_result : Sys
  final_disable : Int
  /-- the bytes `write` accepts, or its errno -/
  write_result : Sys
  /-- content of freshly allocated memory -/
  heap : Str

/-- Modelled from the spec: `read_sysfs_posint` of `iio_utils.h` on the attribute
`enable` (the current enable state is queried): the flag as 0 or 1, or the negated
errno when the file cannot be read. -/
def read_sysfs_posint_enable (fail : Option Nat) (dev : DevState) : Int :=
  match fail with
  | some e => -(e : Int)
  | none => if dev.enable then 1 else 0

/-- Modelled from the spec: `write_sysfs_int` of `iio_utils.h` on the attribute
`enable` (the buffer is enabled or disabled by a write to its control file); `r`
is the value returned, negative on failure. -/
def write_sysfs_int_enable (r : Int) (val : Int) (dev : DevState) : Int × DevState :=
  if r < 0 then (r, dev) else (0, { dev with enable := decide (val ≠ 0) })

/-- Modelled from the spec: `write_sysfs_int` of `iio_utils.h` on the attribute
`length` (the buffer length is configured by a write to its control file). -/
def write_sysfs_int_length (r : Int) (val : Int) (dev : DevState) : Int × DevState :=
  if r < 0 then (r, dev) else (0, { dev with length := val })

/-- Conversion of an `unsigned` product to `int`. -/
def to_int32 (u : Nat) : Int :=
  if u % 2 ^ 32 < 2 ^ 31 then ((u % 2 ^ 32 : Nat) : Int) else ((u % 2 ^ 32 : Nat) : Int) - 2 ^ 32

/-- Conversion of an `int` to `size_t`. -/
def to_size_t (x : Int) : Nat := (x % 2 ^ 64).toNat

structure BufResult where
  ret : Int
  out : Str
  dev : DevState
  ops : List Op
  deriving DecidableEq

/-- The tail of `iio_sample` from the label `error_disable`. -/
def iio_sample_error_disable (o : BufOutcomes) (out : Str) (dev : DevState)
    (ops : List Op) : BufResult :=
  let w := write_sysfs_int_enable o.final_disable 0 dev
  ⟨w.1, out, w.2, ops ++ [Op.sysfs_write "enable".toList 0]⟩

/-- Embedding of `iio_sample`. -/
def iio_sample (o : BufOutcomes) (dev : DevState) (samples bytes_per_scan : Nat) : BufResult :=
  let buf_len := to_int32 (samples * bytes_per_scan)
  let q := read_sysfs_posint_enable o.enable_query dev
  let dev1 := if q = 1 then (write_sysfs_int_enable o.pre_disable 0 dev).2 else dev
  let ops1 := if q = 1 then [Op.sysfs_read "enable".toList, Op.sysfs_write "enable".toList 0]
    else [Op.sysfs_read "enable".toList]
  let l := write_sysfs_int_length o.length_write buf_len dev1
  let ops2 := ops1 ++ [Op.sysfs_write "length".toList buf_len]
  if l.1 < 0 then
    ⟨l.1, REPORT_RETVAL l.1, l.2, ops2⟩
  else
    let e := write_sysfs_int_enable o.enable_write 1 l.2
    let ops3 := ops2 ++ [Op.sysfs_write "enable".toList 1]
    if o.malloc_ok = false then
      iio_sample_error_disable o (REPORT_RETVAL (-ENOMEM)) e.2 ops3
    else
      match o.open_errno with
      | some en =>
        iio_sample_error_disable o (REPORT_RETVAL (-(en : Int))) e.2 (ops3 ++ [Op.endpoint_open])
      | none =>
        let ret : Int := match o.read_result with
          | .done d => (d.length : Int)
          | .err en => -(en : Int)
        let data : Str := match o.read_result with
          | .done d => (d ++ o.heap).take (to_size_t buf_len)
          | .err _ => o.heap.take (to_size_t buf_len)
        let out := REPORT_RETVAL ret ++ (if ret > 0 then data else [])
        iio_sample_error_disable o out e.2
          (ops3 ++ [Op.endpoint_open, Op.endpoint_read buf_len])

/-- Embedding of `iio_readbuf`. -/
def iio_readbuf (o : BufOutcomes) (dev : DevState) (samples bytes_per_scan : Nat) : BufResult :=
  let buf_len := to_int32 (samples * bytes_per_scan)
  if o.malloc_ok = false then
    ⟨-ENOMEM, REPORT_RETVAL (-ENOMEM), dev, []⟩
  else
    match o.open_errno with
    | some en => ⟨-(en : Int), REPORT_RETVAL (-(en : Int)), dev, [Op.endpoint_open]⟩
    | none =>
      let ret : Int := match o.read_result with
        | .done d => (d.length : Int)
        | .err en => -(en : Int)
      let data : Str := match o.read_result with
        | .done d => (d ++ o.heap).take (to_size_t buf_len)
        | .err _ => o.heap.take (to_size_t buf_len)
      ⟨ret, REPORT_RETVAL ret ++ (if ret > 0 then data else []), dev,
        [Op.endpoint_open, Op.endpoint_read buf_len]⟩

/-- The `do ... while (rc < samples)` loop of `iio_writebuf` on the unread input
`stdin`.  `fread` delivers what is there, up to the count asked for; at end of input
it delivers nothing and leaves `errno` as it was.  The result is `none` when the
fuel runs out, else the `ret` of the `goto error_close` exit (or `none` for the
normal exit), the bytes gathered and the input left. -/
def stdin_loop (errno : Nat) (samples : Int) :
    Nat → Int → Str → Str → Option (Option Int × Str × Str)
  | 0, _, _, _ => none
  | fuel + 1, rc, data, stdin =>
    let chunk := stdin.take (to_size_t (samples - rc))
    let rest := stdin.drop (to_size_t (samples - rc))
    let n : Int := (chunk.length : Int)
    if n > 0 then
      if rc + n < samples then stdin_loop errno samples fuel (rc + n) (data ++ chunk) rest
      else some (none, data ++ chunk, rest)
    else if (errno : Int) = EAGAIN then
      if rc < samples then stdin_loop errno samples fuel rc data rest
      else some (none, data, rest)
    else some (some (-(errno : Int)), data, rest)

structure WritebufResult where
  /-- the value returned; `none` when the function never returns -/
  ret : Option Int
  dev : DevState
  stdin : Str
  ops : List Op
  deriving DecidableEq

/-- Embedding of `iio_writebuf`.  The input loop gets one unit of fuel per unread
byte and two more; it never ends when the end of input is met with
`errno == EAGAIN`. -/
def iio_writebuf (o : BufOutcomes) (errno : Nat) (dev : DevState) (stdin : Str)
    (samples : Int) : WritebufResult :=
  let l := write_sysfs_int_length o.length_write samples dev
  let ops1 := [Op.sysfs_write "length".toList samples]
  if l.1 < 0 then
    ⟨some l.1, l.2, stdin, ops1⟩
  else if o.malloc_ok = false then
    ⟨some (-ENOMEM), l.2, stdin, ops1⟩
  else
    match o.open_errno with
    | some en => ⟨some (-(en : Int)), l.2, stdin, ops1 ++ [Op.endpoint_open]⟩
    | none =>
      match stdin_loop errno samples (stdin.length + 2) 0 [] stdin with
      | none => ⟨none, l.2, [], ops1 ++ [Op.endpoint_open]⟩
      | some (some ret, _, rest) => ⟨some ret, l.2, rest, ops1 ++ [Op.endpoint_open]⟩
      | some (none, _, rest) =>
        let ret : Int := match o.write_result with
          | .done d => (d.length : Int)
          | .err en => -(en : Int)
        ⟨some ret, l.2, rest, ops1 ++ [Op.endpoint_open, Op.endpoint_write samples]⟩

/-! ## Directory listings -/

structure DirEnt where
  d_name : Str
  /-- `d_type == DT_REG` -/
  is_reg : Bool
  deriving DecidableEq

/-- What `opendir` followed by `readdir` until NULL meets. -/
inductive DirOpen where
  | failed (errno : Nat)
  | entries (es : List DirEnt)
  deriving DecidableEq

/-- `fgets(buf, size, fp)` on a freshly opened file: NULL at end of file, else the
text up to and including the first newline, at most `size - 1` chars. -/
def fgets (size : Nat) (content : Str) : Option Str :=
  if content = [] then none
  else
    let upto := content.takeWhile (fun c => c != '\n')
    let line := if upto.length < content.length then upto ++ ['\n'] else upto
    some (line.take (size - 1))

structure ShowResult where
  ret : Int
  out : Str
  ops : List Op
  deriving DecidableEq

/-- The `while (ent = readdir(dp), ent != NULL)` loop of `iio_show_devices`; the
result is the `ret` of the `goto error_close_dir` exit if it is taken, the flag
`first` and the text printed. -/
def show_devices_loop (iio_dir : Str) (fopen_read : Str → FileRead) :
    List DirEnt → Bool → Str → Option Int × Bool × Str
  | [], first, out => (none, first, out)
  | ent :: es, first, out =>
    let r := snprintf PATH_MAX (iio_dir ++ ent.d_name ++ "/name".toList)
    if r.1 ≥ (PATH_MAX : Int) then (some (-EFAULT), first, out)
    else if ent.d_name = ".".toList then show_devices_loop iio_dir fopen_read es first out
    else if ent.d_name = "..".toList then show_devices_loop iio_dir fopen_read es first out
    else
      match fopen_read r.2 with
      | .open_failed _ => show_devices_loop iio_dir fopen_read es first out
      | .opened content _ _ =>
        match fgets MAX_STR_LEN content with
        | none => show_devices_loop iio_dir fopen_read es first out
        | some buf =>
          let out1 := if first then out ++ "0\n".toList else out
          let str := c_str buf
          let str1 := if str.getLast? = some '\n' then str.dropLast else str
          show_devices_loop iio_dir fopen_read es false (out1 ++ str1 ++ " ".toList)

/-- Embedding of `iio_show_devices`. -/
def iio_show_devices (iio_dir : Str) (opendir : Str → DirOpen)
    (fopen_read : Str → FileRead) : ShowResult :=
  match opendir iio_dir with
  | .failed e => ⟨-(e : Int), REPORT_RETVAL (-(e : Int)), [Op.list_dir iio_dir]⟩
  | .entries es =>
    match show_devices_loop iio_dir fopen_read es true [] with
    | (some ret, _, out) => ⟨ret, out ++ REPORT_RETVAL ret, [Op.list_dir iio_dir]⟩
    | (none, first, out) =>
      ⟨0, out ++ (if first then "-1\n".toList else "\n".toList), [Op.list_dir iio_dir]⟩

/-- The `readdir` loop of `iio_show_device_attributes`. -/
def show_attributes_loop : List DirEnt → Bool → Str → Bool × Str
  | [], first, out => (first, out)
  | ent :: es, first, out =>
    if ent.is_reg then
      let out1 := if first then out ++ "0\n".toList else out
      show_attributes_loop es false (out1 ++ ent.d_name ++ " ".toList)
    else show_attributes_loop es first out

/-- Embedding of `iio_show_device_attributes`; `attr = none` is the NULL pointer. -/
def iio_show_device_attributes (opendir : Str → DirOpen)
    (dir_name : Str) (attr : Option Str) : ShowResult :=
  let listing (path : Str) : ShowResult :=
    match opendir path with
    | .failed e => ⟨-(e : Int), REPORT_RETVAL (-(e : Int)), [Op.list_dir path]⟩
    | .entries es =>
      let r := show_attributes_loop es true []
      ⟨0, r.2 ++ (if r.1 then "-1\n".toList else "\n".toList), [Op.list_dir path]⟩
  match attr with
  | none => listing dir_name
  | some a =>
    let r := snprintf PATH_MAX (dir_name ++ '/' :: a)
    if r.1 ≥ (PATH_MAX : Int) then ⟨-EFAULT, REPORT_RETVAL (-EFAULT), []⟩
    else listing r.2

/-! ## The dispatcher -/

/-- `strtok_r(s, delim, &saveptr)` on the unconsumed text `s`: the token, if there is
one, and the new value of `saveptr`. -/
def strtok_r (delim : Str) (s : Str) : Option Str × Str :=
  let s1 := s.dropWhile (fun c => delim.contains c)
  if s1 = [] then (none, [])
  else
    (some (s1.takeWhile (fun c => !delim.contains c)),
      (s1.dropWhile (fun c => !delim.contains c)).drop 1)

def isspace (c : Char) : Bool :=
  c == ' ' || c == '\t' || c == '\n' || c == '\x0b' || c == '\x0c' || c == '\r'

/-- `sscanf(s, "%u", &val) == 1` and the value stored: leading white space, an
optional sign, at least one decimal digit.  The digits are converted as by `strtoul`
with a 64-bit `unsigned long` (a value above ULONG_MAX becomes ULONG_MAX, a minus sign
negates modulo 2^64) and the result is stored in the 32-bit `unsigned`. -/
def sscanf_u (s : Str) : Option Nat :=
  let s1 := s.dropWhile isspace
  let neg := s1.head? = some '-'
  let s2 := if s1.head? = some '-' ∨ s1.head? = some '+' then s1.drop 1 else s1
  let ds := s2.takeWhile Char.isDigit
  if ds = [] then none
  else
    let v : Nat := ds.foldl (fun a c => 10 * a + (c.toNat - 48)) 0
    let ul : Nat := if v > 2 ^ 64 - 1 then 2 ^ 64 - 1
      else if neg then (2 ^ 64 - v) % 2 ^ 64 else v
    some (ul % 2 ^ 32)

inductive Cmd where
  | DO_READ | DO_WRITE | DO_SAMPLE | DO_READBUF | DO_WRITEBUF | DO_DBFSREGWRITE
  | DO_DBFSREGREAD | DO_SHOW | DO_DBFSWRITE | DO_DBFSREAD | DO_DBFSSHOW
  deriving DecidableEq

/-- Where the `if ... else if` chain on the first token of a line ends. -/
inductive Keyword where
  | cmd (c : Cmd)
  | version
  | help
  | fru_eeprom
  | blank
  | unknown
  deriving DecidableEq

/-- The keyword chain of `main`, in source order. -/
def keyword (token : Str) : Keyword :=
  if strncmp_eq token "read".toList 4 then .cmd .DO_READ
  else if strncmp_eq token "write".toList 5 then .cmd .DO_WRITE
  else if strncmp_eq token "sample".toList 6 then .cmd .DO_SAMPLE
  else if strncmp_eq token "bufread".toList 7 then .cmd .DO_READBUF
  else if strncmp_eq token "bufwrite".toList 8 then .cmd .DO_WRITEBUF
  else if strncmp_eq token "show".toList 4 then .cmd .DO_SHOW
  else if strncmp_eq token "regwrite".toList 8 then .cmd .DO_DBFSREGWRITE
  else if strncmp_eq token "regread".toList 7 then .cmd .DO_DBFSREGREAD
  else if strncmp_eq token "dbfsshow".toList 8 then .cmd .DO_DBFSSHOW
  else if strncmp_eq token "dbfswrite".toList 9 then .cmd .DO_DBFSWRITE
  else if strncmp_eq token "dbfsread".toList 8 then .cmd .DO_DBFSREAD
  else if strncmp_eq token "version".toList 7 then .version
  else if strncmp_eq token "help".toList 4 then .help
  else if strncmp_eq token "fru_eeprom".toList 10 then .fru_eeprom
  else if strncmp_eq token "\n".toList 1 then .blank
  else .unknown

def HELP_TEXT : Str :=
  ("IIO Command Server Syntax:\n" ++
  "read <IIODeviceName> <Attribute>\n" ++
  "write <IIODeviceName> <Attribute> <Value>\n" ++
  "readbuf <IIODeviceName> <NUMSamples> <BytesPerSample>\n" ++
  "bufwrite <IIODeviceName> <NUMBytes>\n" ++
  "sample <IIODeviceName> <NUMSamples> <BytesPerSample>\n" ++
  "regread <IIODeviceName> <RegisterAddress>\n" ++
  "regwrite <IIODeviceName> <RegisterAddress> <Value>\n" ++
  "dbfsread <IIODeviceName> <Attribute>\n" ++
  "dbfswrite <IIODeviceName> <Attribute> <Value>\n" ++
  "show [<IIODeviceName> <Path>]\n" ++
  "dbfsshow <IIODeviceName> <Path>\n" ++
  "version\n").toList

/-- The world as one command line meets it. -/
structure Env where
  iio_dir : Str
  find_type_by_name : Str → Str → Int
  /-- value of `errno` when the line is read -/
  errno : Nat
  fopen_read : Str → FileRead
  fopen_write : Str → Str → FileWrite
  opendir : Str → DirOpen
  buf : BufOutcomes

/-- How the body of the `while` loop of `main` is left. -/
inductive Next where
  /-- `continue`, or the end of the body: the next line is read -/
  | next_line
  /-- `break` or `exit` -/
  | exit_session
  /-- the body never ends -/
  | hang
  deriving DecidableEq

/-- The process state that one line can change and what it printed. -/
structure LineResult where
  out : Str
  g : Paths
  dev : DevState
  stdin : Str
  ops : List Op
  next : Next
  /-- final value of `saveptr1`: the part of the line no `strtok_r` call consumed -/
  saveptr : Str
  deriving DecidableEq

/-- The `switch (cmd)` of `main`, entered with `ret` as `set_dev_paths` left it, the
token `attr` and the tokenizer position `sp`. -/
def execute (env : Env) (g : Paths) (dev : DevState) (stdin : Str) (cmd : Cmd) (ret : Int)
    (ops : List Op) (attr sp : Str) : LineResult :=
  let einval (sp1 : Str) : LineResult :=
    ⟨REPORT_RETVAL (-EINVAL), g, dev, stdin, ops, .next_line, sp1⟩
  match cmd with
  | .DO_READ =>
    let r := read_devattr_stdout env.errno env.fopen_read g.dev_dir_name attr
    ⟨r.out, g, dev, stdin, ops ++ r.ops, .next_line, sp⟩
  | .DO_WRITE =>
    let t := strtok_r " \n".toList sp
    match t.1 with
    | some token =>
      let w := write_devattr env.errno env.fopen_write g.dev_dir_name attr token none
      ⟨REPORT_RETVAL w.ret, g, dev, stdin, ops ++ w.ops, .next_line, t.2⟩
    | none => einval t.2
  | .DO_SAMPLE =>
    match sscanf_u attr with
    | some val =>
      let t := strtok_r " \n".toList sp
      match t.1 with
      | some token =>
        match sscanf_u token with
        | some val2 =>
          let r := iio_sample env.buf dev val val2
          ⟨r.out, g, r.dev, stdin, ops ++ r.ops, .next_line, t.2⟩
        | none => einval t.2
      | none => einval t.2
    | none => einval sp
  | .DO_READBUF =>
    match sscanf_u attr with
    | some val =>
      let t := strtok_r " \n".toList sp
      match t.1 with
      | some token =>
        match sscanf_u token with
        | some val2 =>
          let r := iio_readbuf env.buf dev val val2
          ⟨r.out, g, r.dev, stdin, ops ++ r.ops, .next_line, t.2⟩
        | none => einval t.2
      | none => einval t.2
    | none => einval sp
  | .DO_WRITEBUF =>
    match sscanf_u attr with
    | some val =>
      let w := iio_writebuf env.buf env.errno dev stdin (to_int32 val)
      match w.ret with
      | some _ => ⟨REPORT_RETVAL ret, g, w.dev, w.stdin, ops ++ w.ops, .next_line, sp⟩
      | none => ⟨[], g, w.dev, w.stdin, ops ++ w.ops, .hang, sp⟩
    | none => ⟨REPORT_RETVAL ret, g, dev, stdin, ops, .next_line, sp⟩
  | .DO_DBFSREGREAD =>
    let w := write_devattr env.errno env.fopen_write g.dbfs_dir_name DBFS_REG_ATTR attr none
    if w.ret < 0 then
      ⟨REPORT_RETVAL w.ret, g, dev, stdin, ops ++ w.ops, .next_line, sp⟩
    else
      let r := read_devattr_stdout env.errno env.fopen_read g.dbfs_dir_name DBFS_REG_ATTR
      ⟨r.out, g, dev, stdin, ops ++ w.ops ++ r.ops, .next_line, sp⟩
  | .DO_DBFSREGWRITE =>
    let t := strtok_r " \n".toList sp
    match t.1 with
    | some token =>
      let w := write_devattr env.errno env.fopen_write g.dbfs_dir_name DBFS_REG_ATTR attr
        (some token)
      ⟨REPORT_RETVAL w.ret, g, dev, stdin, ops ++ w.ops, .next_line, t.2⟩
    | none => einval t.2
  | .DO_SHOW =>
    let r := iio_show_device_attributes env.opendir g.dev_dir_name (some attr)
    ⟨r.out, g, dev, stdin, ops ++ r.ops, .next_line, sp⟩
  | .DO_DBFSSHOW =>
    let r := iio_show_device_attributes env.opendir g.dbfs_dir_name (some attr)
    ⟨r.out, g, dev, stdin, ops ++ r.ops, .next_line, sp⟩
  | .DO_DBFSREAD =>
    let r := read_devattr_stdout env.errno env.fopen_read g.dbfs_dir_name attr
    ⟨r.out, g, dev, stdin, ops ++ r.ops, .next_line, sp⟩
  | .DO_DBFSWRITE =>
    let t := strtok_r " \n".toList sp
    match t.1 with
    | some token =>
      let w := write_devattr env.errno env.fopen_write g.dbfs_dir_name attr token none
      ⟨REPORT_RETVAL w.ret, g, dev, stdin, ops ++ w.ops, .next_line, t.2⟩
    | none => einval t.2

/-- The part of the loop body of `main` after the keyword chain: device name,
`set_dev_paths`, first argument, `switch`. -/
def dispatch (env : Env) (g : Paths) (dev : DevState) (stdin : Str) (cmd : Cmd)
    (sp : Str) : LineResult :=
  let d := strtok_r " \n".toList sp
  match d.1 with
  | none =>
    if cmd = .DO_SHOW then
      let r := iio_show_devices env.iio_dir env.opendir env.fopen_read
      ⟨r.out, g, dev, stdin, r.ops, .next_line, d.2⟩
    else
      ⟨REPORT_RETVAL (-EINVAL), g, dev, stdin, [], .next_line, d.2⟩
  | some device_name =>
    let s := set_dev_paths env.iio_dir env.find_type_by_name g device_name
    if s.ret < 0 then
      ⟨REPORT_RETVAL s.ret, s.g, dev, stdin, s.ops, .next_line, d.2⟩
    else
      let a := strtok_r " \n".toList d.2
      match a.1 with
      | none => ⟨REPORT_RETVAL (-EINVAL), s.g, dev, stdin, s.ops, .next_line, a.2⟩
      | some attr => execute env s.g dev stdin cmd s.ret s.ops attr a.2

/-- The loop body of `main` on one line as `getline` delivers it; `stdin` is the
input after that line.  The script started by `fru_eeprom` is outside the model:
that branch ends the session. -/
def handle_line (env : Env) (g : Paths) (dev : DevState) (stdin : Str) (line : Str) :
    LineResult :=
  let t := strtok_r " ".toList (c_str line)
  match t.1 with
  | none => ⟨[], g, dev, stdin, [], .exit_session, t.2⟩
  | some token =>
    match keyword token with
    | .cmd c => dispatch env g dev stdin c t.2
    | .version => ⟨CURR_VERSION ++ "\n".toList, g, dev, stdin, [], .next_line, t.2⟩
    | .help => ⟨HELP_TEXT ++ "\n".toList, g, dev, stdin, [], .next_line, t.2⟩
    | .fru_eeprom => ⟨[], g, dev, stdin, [], .exit_session, (strtok_r " \n".toList t.2).2⟩
    | .blank => ⟨[], g, dev, stdin, [], .next_line, t.2⟩
    | .unknown => ⟨[], g, dev, stdin, [], .exit_session, t.2⟩

/-- `getline(&line, &len, stdin)`: the next line with its newline, and the input
left; `none` at end of input. -/
def getline (stdin : Str) : Option (Str × Str) :=
  if stdin = [] then none
  else
    let l := stdin.takeWhile (fun c => c != '\n')
    match stdin.drop l.length with
    | [] => some (l, [])
    | _ :: rest => some (l ++ ['\n'], rest)

structure MainResult where
  out : Str
  g : Paths
  dev : DevState
  ops : List Op
  /-- `exit(EXIT_SUCCESS)` was reached -/
  exited : Bool
  deriving DecidableEq

/-- The `while` loop of `main`; `envs i` is the world as the `i`-th line meets it. -/
def main_loop (envs : Nat → Env) :
    Nat → Nat → Paths → DevState → Str → Str → List Op → MainResult
  | 0, _, g, dev, _, out, ops => ⟨out, g, dev, ops, false⟩
  | fuel + 1, i, g, dev, stdin, out, ops =>
    match getline stdin with
    | none => ⟨out, g, dev, ops, true⟩
    | some (line, rest) =>
      let r := handle_line (envs i) g dev rest line
      match r.next with
      | .next_line => main_loop envs fuel (i + 1) r.g r.dev r.stdin (out ++ r.out) (ops ++ r.ops)
      | .exit_session => ⟨out ++ r.out, r.g, r.dev, ops ++ r.ops, true⟩
      | .hang => ⟨out ++ r.out, r.g, r.dev, ops ++ r.ops, false⟩

/-- Embedding of `main` on the whole input: every line takes at least one byte, so
one unit of fuel per byte and one more let the loop reach its end. -/
def main (envs : Nat → Env) (dev : DevState) (stdin : Str) : MainResult :=
  main_loop envs (stdin.length + 1) 0 Paths.init dev stdin [] []


/-! ## Inputs used by the theorems -/

/-- A sequence of `set_dev_paths` calls, each with the resolver as that call meets
it, run from the cache `g`. -/
def set_dev_paths_seq (iio_dir : Str) : List (Str × (Str → Str → Int)) → Paths → Paths
  | [], g => g
  | c :: cs, g => set_dev_paths_seq iio_dir cs (set_dev_paths iio_dir c.2 g c.1).g

/-- The cache that a successful lookup of `name` as slot `n` builds. -/
def resolved_paths (iio_dir : Str) (name : Str) (n : Int) : Paths :=
  ⟨(fmt_dev_dir iio_dir n).take (PATH_MAX - 1), (fmt_buf_dir iio_dir n).take (PATH_MAX - 1),
    (fmt_dbfs_dir n).take (PATH_MAX - 1), (fmt_buffer_access n).take (PATH_MAX - 1), name⟩

/-- The four paths of slot `n`, in full, with the name they are cached for. -/
def slot_paths (iio_dir : Str) (name : Str) (n : Int) : Paths :=
  ⟨fmt_dev_dir iio_dir n, fmt_buf_dir iio_dir n, fmt_dbfs_dir n, fmt_buffer_access n, name⟩

/-- A base directory of 4077 bytes: with it the buffer directory of a one-digit slot
has 4095 bytes and that of a two-digit slot 4096. -/
def long_iio_dir : Str := List.replicate 4077 'd'

/-- The sysfs directory `iio_utils.h` uses. -/
def sys_iio_dir : Str := "/sys/bus/iio/devices/".toList

/-- A resolver that knows no device. -/
def no_device : Str → Str → Int := fun _ _ => -1

/-- A resolver that knows `dev0` as slot 3, `a` as slot 5 and `b` as slot 10. -/
def some_devices : Str → Str → Int := fun name _ =>
  if name = "dev0".toList then 3
  else if name = "a".toList then 5
  else if name = "b".toList then 10
  else -1

/-- Outcomes in which every call succeeds; the endpoint delivers and accepts the 16
bytes `0123456789abcdef`. -/
def outcomes_ok : BufOutcomes :=
  { enable_query := none, pre_disable := 0, length_write := 0, enable_write := 0,
    malloc_ok := true, open_errno := none, read_result := .done "0123456789abcdef".toList,
    final_disable := 0, write_result := .done "0123456789abcdef".toList, heap := [] }

/-- Outcomes in which the pre-disable write and the length write fail with EACCES
and every other call succeeds. -/
def outcomes_length_fails : BufOutcomes :=
  { outcomes_ok with pre_disable := -13, length_write := -13 }

/-- A world in which every call succeeds: every attribute file holds `123\n`. -/
def env_ok : Env :=
  { iio_dir := sys_iio_dir, find_type_by_name := some_devices, errno := 0,
    fopen_read := fun _ => .opened "123\n".toList false true,
    fopen_write := fun _ _ => .written,
    opendir := fun _ => .entries [],
    buf := outcomes_ok }

/-- The cache once `dev0` (slot 3) is resolved. -/
def dev0_paths : Paths :=
  { dev_dir_name := "/sys/bus/iio/devices/iio:device3".toList,
    buf_dir_name := "/sys/bus/iio/devices/iio:device3/buffer".toList,
    dbfs_dir_name := "/sys/kernel/debug/iio/iio:device3".toList,
    buffer_access := "/dev/iio:device3".toList,
    last_device_name := "dev0".toList }


/-! ## iio_sample and the enable flag -/

theorem error_disable_enable (o : BufOutcomes) (out : Str) (dev : DevState) (ops : List Op)
    (h : 0 ≤ o.final_disable) :
    (iio_sample_error_disable o out dev ops).dev.enable = false := by
  simp [iio_sample_error_disable, write_sysfs_int_enable, not_lt.mpr h]

/-- C1 (counterexample): the buffer is enabled on entry, the enable query reports it,
the pre-disable write and the length write fail: `iio_sample` reports -13 and returns
with the buffer still enabled. -/
theorem iio_sample_leaves_enabled :
    (iio_sample outcomes_length_fails ⟨true, 0⟩ 4 2).dev.enable = true ∧
    (iio_sample outcomes_length_fails ⟨true, 0⟩ 4 2).out = "-13\n\n\n".toList := by
  decide

/-- C1 (amended): when each write of 0 to the enable file that is attempted succeeds
(the pre-disable write, made when the query reports an enabled buffer, and the final
disable write, made when the length write succeeds) and either the enable query
succeeds or the length write succeeds, the buffer is disabled when `iio_sample`
returns, whatever the length write, the enable write, the allocation, the open and the
read do. -/
theorem iio_sample_disables_buffer (o : BufOutcomes) (dev : DevState)
    (samples bytes_per_scan : Nat)
    (hpre : dev.enable = true → o.enable_query = none → 0 ≤ o.pre_disable)
    (hfin : 0 ≤ o.length_write → 0 ≤ o.final_disable)
    (hq : o.enable_query = none ∨ 0 ≤ o.length_write) :
    (iio_sample o dev samples bytes_per_scan).dev.enable = false := by
  unfold iio_sample
  by_cases hl : o.length_write < 0
  · have hqn : o.enable_query = none := by
      rcases hq with h | h
      · exact h
      · exact absurd hl (not_lt.mpr h)
    cases hen : dev.enable
    · simp [write_sysfs_int_length, hl, read_sysfs_posint_enable, hqn, hen]
    · simp [write_sysfs_int_length, hl, read_sysfs_posint_enable, hqn, hen,
        write_sysfs_int_enable, not_lt.mpr (hpre hen hqn)]
  · have hf : 0 ≤ o.final_disable := hfin (not_lt.mp hl)
    simp only [write_sysfs_int_length, hl, if_false, lt_self_iff_false]
    by_cases hm : o.malloc_ok = false
    · simp only [hm, if_true]
      exact error_disable_enable _ _ _ _ hf
    · simp only [hm, if_false]
      cases ho : o.open_errno
      · exact error_disable_enable _ _ _ _ hf
      · exact error_disable_enable _ _ _ _ hf

/-- C1 (witness): buffer enabled on entry, the length write fails with EACCES, the
query and the pre-disable write succeed. -/
theorem iio_sample_disables_buffer_witness :
    (iio_sample { outcomes_ok with length_write := -13 } ⟨true, 0⟩ 4 2).dev.enable = false :=
  iio_sample_disables_buffer { outcomes_ok with length_write := -13 } ⟨true, 0⟩ 4 2
    (fun _ _ => by decide) (fun h => absurd h (by decide)) (Or.inl rfl)

/-! ## set_dev_paths: lookups -/

theorem strncmp_eq_short (d c : Str) (h : d.length < PATH_MAX) :
    strncmp_eq d c PATH_MAX = true ↔ d = c := by
  unfold strncmp_eq
  rw [beq_iff_eq, List.take_of_length_le (le_of_lt h)]
  constructor
  · intro e
    by_cases hc : c.length ≤ PATH_MAX
    · rw [List.take_of_length_le hc] at e
      exact e
    · exfalso
      have hl : d.length = (c.take PATH_MAX).length := by rw [← e]
      rw [List.length_take] at hl
      omega
  · intro e
    subst e
    exact (List.take_of_length_le (le_of_lt h)).symm

theorem strncmp_eq_self (d : Str) (n : Nat) : strncmp_eq d d n = true := by
  simp [strncmp_eq]

theorem set_dev_paths_hit (iio_dir : Str) (f : Str → Str → Int) (g : Paths) :
    set_dev_paths iio_dir f g g.last_device_name = ⟨0, g, []⟩ := by
  simp [set_dev_paths, strncmp_eq_self]

theorem set_dev_paths_miss_ops (iio_dir : Str) (f : Str → Str → Int) (g : Paths) (d : Str)
    (h : strncmp_eq d g.last_device_name PATH_MAX = false) :
    (set_dev_paths iio_dir f g d).ops = [Op.lookup d] := by
  simp only [set_dev_paths, h, if_true]
  split_ifs <;> rfl

theorem set_dev_paths_miss_name (iio_dir : Str) (f : Str → Str → Int) (g : Paths) (d : Str)
    (h : strncmp_eq d g.last_device_name PATH_MAX = false) :
    ((set_dev_paths iio_dir f g d).ret = 0 →
      (set_dev_paths iio_dir f g d).g.last_device_name = d) ∧
    ((set_dev_paths iio_dir f g d).ret < 0 →
      (set_dev_paths iio_dir f g d).g.last_device_name = g.last_device_name) := by
  simp only [set_dev_paths, h, if_true]
  split_ifs <;> simp [ENODEV, EFAULT]

theorem set_dev_paths_name_cases (iio_dir : Str) (f : Str → Str → Int) (g : Paths) (d : Str) :
    (set_dev_paths iio_dir f g d).g.last_device_name = g.last_device_name ∨
    (set_dev_paths iio_dir f g d).g.last_device_name = d := by
  simp only [set_dev_paths]
  split_ifs <;> simp

theorem set_dev_paths_seq_name (iio_dir : Str) (calls : List (Str × (Str → Str → Int)))
    (g : Paths) :
    (set_dev_paths_seq iio_dir calls g).last_device_name = g.last_device_name ∨
    (set_dev_paths_seq iio_dir calls g).last_device_name ∈ calls.map Prod.fst := by
  induction calls generalizing g with
  | nil => exact Or.inl rfl
  | cons c cs ih =>
    simp only [set_dev_paths_seq, List.map_cons, List.mem_cons]
    rcases ih (set_dev_paths iio_dir c.2 g c.1).g with h | h
    · rcases set_dev_paths_name_cases iio_dir c.2 g c.1 with h2 | h2
      · exact Or.inl (h.trans h2)
      · exact Or.inr (Or.inl (h.trans h2))
    · exact Or.inr (Or.inr h)

theorem set_dev_paths_seq_repeat (iio_dir : Str) (f : Str → Str → Int) (g : Paths) (k : Nat) :
    set_dev_paths_seq iio_dir (List.replicate k (g.last_device_name, f)) g = g := by
  induction k with
  | zero => rfl
  | succ k ih =>
    simp only [List.replicate_succ, set_dev_paths_seq, set_dev_paths_hit]
    exact ih

/-- C5 (counterexample): the resolver finds no slot for `nodev`; the first call looks
the name up and fails, and the call with the same name right after it looks the name
up again. -/
theorem set_dev_paths_failed_name_looked_up_again :
    (set_dev_paths sys_iio_dir no_device Paths.init "nodev".toList).ops
      = [Op.lookup "nodev".toList] ∧
    (set_dev_paths sys_iio_dir no_device
      (set_dev_paths sys_iio_dir no_device Paths.init "nodev".toList).g "nodev".toList).ops
      = [Op.lookup "nodev".toList] := by
  decide

/-- C5 (amended): after any sequence of calls from the initial cache, a call with a
non-empty name (shorter than PATH_MAX) that no earlier call had performs exactly one
lookup; if that call succeeds, every number of calls with the same name right after it
leaves the cache as it is and such a call performs no lookup; if that call fails, the
cached name is not replaced and the call with the same name right after it performs
one lookup again. -/
theorem set_dev_paths_lookups (iio_dir : Str) (calls : List (Str × (Str → Str → Int)))
    (d : Str) (f f2 : Str → Str → Int)
    (hne : d ≠ []) (hlen : d.length < PATH_MAX) (hnew : d ∉ calls.map Prod.fst) :
    (set_dev_paths iio_dir f (set_dev_paths_seq iio_dir calls Paths.init) d).ops
      = [Op.lookup d] ∧
    ((set_dev_paths iio_dir f (set_dev_paths_seq iio_dir calls Paths.init) d).ret = 0 →
      ∀ k, set_dev_paths_seq iio_dir (List.replicate k (d, f2))
          (set_dev_paths iio_dir f (set_dev_paths_seq iio_dir calls Paths.init) d).g
          = (set_dev_paths iio_dir f (set_dev_paths_seq iio_dir calls Paths.init) d).g ∧
        (set_dev_paths iio_dir f2
          (set_dev_paths iio_dir f (set_dev_paths_seq iio_dir calls Paths.init) d).g d).ops
          = []) ∧
    ((set_dev_paths iio_dir f (set_dev_paths_seq iio_dir calls Paths.init) d).ret < 0 →
      (set_dev_paths iio_dir f (set_dev_paths_seq iio_dir calls Paths.init) d).g.last_device_name
        = (set_dev_paths_seq iio_dir calls Paths.init).last_device_name ∧
      (set_dev_paths iio_dir f2
        (set_dev_paths iio_dir f (set_dev_paths_seq iio_dir calls Paths.init) d).g d).ops
        = [Op.lookup d]) := by
  have hmiss : strncmp_eq d (set_dev_paths_seq iio_dir calls Paths.init).last_device_name
      PATH_MAX = false := by
    rw [Bool.eq_false_iff]
    intro h
    have e := (strncmp_eq_short d _ hlen).mp h
    rcases set_dev_paths_seq_name iio_dir calls Paths.init with h1 | h1
    · rw [← e] at h1
      exact hne h1
    · rw [← e] at h1
      exact hnew h1
  have hname := set_dev_paths_miss_name iio_dir f _ d hmiss
  refine ⟨set_dev_paths_miss_ops iio_dir f _ d hmiss, ?_, ?_⟩
  · intro h0 k
    have e := hname.1 h0
    constructor
    · have := set_dev_paths_seq_repeat iio_dir f2
        (set_dev_paths iio_dir f (set_dev_paths_seq iio_dir calls Paths.init) d).g k
      rw [e] at this
      exact this
    · have := set_dev_paths_hit iio_dir f2
        (set_dev_paths iio_dir f (set_dev_paths_seq iio_dir calls Paths.init) d).g
      rw [e] at this
      rw [this]
  · intro hneg
    refine ⟨hname.2 hneg, ?_⟩
    apply set_dev_paths_miss_ops
    rw [hname.2 hneg]
    exact hmiss

/-- C5 (witness): `dev0` after a failed call for `nodev`. -/
theorem set_dev_paths_lookups_witness :
    (set_dev_paths sys_iio_dir some_devices
      (set_dev_paths_seq sys_iio_dir [("nodev".toList, no_device)] Paths.init)
      "dev0".toList).ops = [Op.lookup "dev0".toList] :=
  (set_dev_paths_lookups sys_iio_dir [("nodev".toList, no_device)] "dev0".toList
    some_devices some_devices (by decide) (by decide) (by decide)).1


/-! ## set_dev_paths: the cached paths -/

theorem long_iio_dir_length : long_iio_dir.length = 4077 := List.length_replicate _ _

theorem take_long_append (n : Nat) (s : Str) (h : 4077 ≤ n) :
    (long_iio_dir ++ s).take n = long_iio_dir ++ s.take (n - 4077) := by
  rw [List.take_append_eq_append_take, long_iio_dir_length,
    List.take_of_length_le (by rw [long_iio_dir_length]; exact h)]

theorem set_dev_paths_resolved (iio_dir : Str) (f : Str → Str → Int) (g : Paths) (d : Str)
    (hmiss : strncmp_eq d g.last_device_name PATH_MAX = false)
    (hslot : 0 ≤ f d "iio:device".toList)
    (hfit : (fmt_buf_dir iio_dir (f d "iio:device".toList)).length < PATH_MAX) :
    set_dev_paths iio_dir f g d =
      ⟨0, ⟨(fmt_dev_dir iio_dir (f d "iio:device".toList)).take (PATH_MAX - 1),
          (fmt_buf_dir iio_dir (f d "iio:device".toList)).take (PATH_MAX - 1),
          (fmt_dbfs_dir (f d "iio:device".toList)).take (PATH_MAX - 1),
          (fmt_buffer_access (f d "iio:device".toList)).take (PATH_MAX - 1), d⟩,
        [Op.lookup d]⟩ := by
  have h2 : ¬ ((PATH_MAX : Int) ≤ ((fmt_buf_dir iio_dir (f d "iio:device".toList)).length : Int)) := by
    omega
  simp only [set_dev_paths, hmiss, if_true, not_lt.mpr hslot, if_false, snprintf, ge_iff_le, h2]

theorem set_dev_paths_too_long (iio_dir : Str) (f : Str → Str → Int) (g : Paths) (d : Str)
    (hmiss : strncmp_eq d g.last_device_name PATH_MAX = false)
    (hslot : 0 ≤ f d "iio:device".toList)
    (hlong : PATH_MAX ≤ (fmt_buf_dir iio_dir (f d "iio:device".toList)).length) :
    set_dev_paths iio_dir f g d =
      ⟨-EFAULT, { g with buf_dir_name :=
          (fmt_buf_dir iio_dir (f d "iio:device".toList)).take (PATH_MAX - 1) },
        [Op.lookup d]⟩ := by
  have h2 : (PATH_MAX : Int) ≤ ((fmt_buf_dir iio_dir (f d "iio:device".toList)).length : Int) := by
    omega
  simp only [set_dev_paths, hmiss, if_true, not_lt.mpr hslot, if_false, snprintf, ge_iff_le, h2]

/-- C9 (counterexample): with a base directory of 4077 bytes, `a` (slot 5) is
resolved and cached; the call for `b` (slot 10) then fails with -EFAULT, the cached
name and three paths stay those of slot 5, and the buffer directory has been
overwritten with the truncated path of slot 10. -/
theorem set_dev_paths_failed_call_overwrites_buf_dir :
    set_dev_paths long_iio_dir some_devices Paths.init "a".toList =
      ⟨0, ⟨long_iio_dir ++ "iio:device5".toList, long_iio_dir ++ "iio:device5/buffer".toList,
        "/sys/kernel/debug/iio/iio:device5".toList, "/dev/iio:device5".toList, "a".toList⟩,
        [Op.lookup "a".toList]⟩ ∧
    set_dev_paths long_iio_dir some_devices
      (set_dev_paths long_iio_dir some_devices Paths.init "a".toList).g "b".toList =
      ⟨-EFAULT, ⟨long_iio_dir ++ "iio:device5".toList,
        long_iio_dir ++ "iio:device10/buffe".toList,
        "/sys/kernel/debug/iio/iio:device5".toList, "/dev/iio:device5".toList, "a".toList⟩,
        [Op.lookup "b".toList]⟩ := by
  have ha : some_devices "a".toList "iio:device".toList = 5 := by decide
  have hb : some_devices "b".toList "iio:device".toList = 10 := by decide
  have e5 : fmt_buf_dir long_iio_dir 5 = long_iio_dir ++ "iio:device5/buffer".toList := by
    simp only [fmt_buf_dir, List.append_assoc]
    rfl
  have e10 : fmt_buf_dir long_iio_dir 10 = long_iio_dir ++ "iio:device10/buffer".toList := by
    simp only [fmt_buf_dir, List.append_assoc]
    rfl
  have d5 : fmt_dev_dir long_iio_dir 5 = long_iio_dir ++ "iio:device5".toList := by
    simp only [fmt_dev_dir, List.append_assoc]
    rfl
  have first : set_dev_paths long_iio_dir some_devices Paths.init "a".toList =
      ⟨0, ⟨long_iio_dir ++ "iio:device5".toList, long_iio_dir ++ "iio:device5/buffer".toList,
        "/sys/kernel/debug/iio/iio:device5".toList, "/dev/iio:device5".toList, "a".toList⟩,
        [Op.lookup "a".toList]⟩ := by
    rw [set_dev_paths_resolved long_iio_dir some_devices Paths.init "a".toList (by decide)
      (by rw [ha]; decide)
      (by rw [ha, e5, List.length_append, long_iio_dir_length]; decide)]
    rw [ha, e5, d5, take_long_append _ _ (by decide), take_long_append _ _ (by decide)]
    have t1 : ("iio:device5".toList).take (PATH_MAX - 1 - 4077) = "iio:device5".toList := by
      decide
    have t2 : ("iio:device5/buffer".toList).take (PATH_MAX - 1 - 4077)
        = "iio:device5/buffer".toList := by decide
    have t3 : (fmt_dbfs_dir 5).take (PATH_MAX - 1)
        = "/sys/kernel/debug/iio/iio:device5".toList := by decide
    have t4 : (fmt_buffer_access 5).take (PATH_MAX - 1) = "/dev/iio:device5".toList := by
      decide
    rw [t1, t2, t3, t4]
  refine ⟨first, ?_⟩
  rw [first]
  rw [set_dev_paths_too_long long_iio_dir some_devices _ "b".toList (by decide)
    (by rw [hb]; decide)
    (by rw [hb, e10, List.length_append, long_iio_dir_length]; decide)]
  rw [hb, e10, take_long_append _ _ (by decide)]
  have t5 : ("iio:device10/buffer".toList).take (PATH_MAX - 1 - 4077)
      = "iio:device10/buffe".toList := by decide
  rw [t5]


/-! ## Replies of the dispatcher -/

/-- C2 (failing input): `read dev0 scale` and `dbfsread dev0 scale` on a device that
resolves print nothing at all, neither status nor value, when the attribute file
cannot be opened (ENOENT) and when it is empty; the loop goes on to the next line. -/
theorem read_reply_without_status_line :
    handle_line { env_ok with fopen_read := fun _ => .open_failed 2 } Paths.init ⟨false, 0⟩ []
      "read dev0 scale\n".toList
      = ⟨[], dev0_paths, ⟨false, 0⟩, [],
          [Op.lookup "dev0".toList, Op.file_read "/sys/bus/iio/devices/iio:device3/scale".toList],
          .next_line, []⟩ ∧
    handle_line { env_ok with fopen_read := fun _ => .opened [] false true } Paths.init
      ⟨false, 0⟩ [] "read dev0 scale\n".toList
      = ⟨[], dev0_paths, ⟨false, 0⟩, [],
          [Op.lookup "dev0".toList, Op.file_read "/sys/bus/iio/devices/iio:device3/scale".toList],
          .next_line, []⟩ ∧
    (handle_line { env_ok with fopen_read := fun _ => .open_failed 2 } Paths.init ⟨false, 0⟩ []
      "dbfsread dev0 scale\n".toList).out = [] ∧
    (handle_line { env_ok with fopen_read := fun _ => .opened [] false true } Paths.init
      ⟨false, 0⟩ [] "dbfsread dev0 scale\n".toList).out = [] := by
  decide

/-- C3 (failing input): `bufwrite dev0 16` with the 16 bytes on the input.  When the
length write fails `iio_writebuf` returns -13, when all goes well it returns the 16 of
`write`; the status line printed is `0` both times. -/
theorem bufwrite_status_is_not_iio_writebuf_value :
    (iio_writebuf { outcomes_ok with length_write := -13 } 0 ⟨false, 0⟩
      "0123456789abcdef".toList 16).ret = some (-13) ∧
    (handle_line { env_ok with buf := { outcomes_ok with length_write := -13 } } Paths.init
      ⟨false, 0⟩ "0123456789abcdef".toList "bufwrite dev0 16\n".toList).out
      = "0\n\n\n".toList ∧
    (iio_writebuf outcomes_ok 0 ⟨false, 0⟩ "0123456789abcdef".toList 16).ret = some 16 ∧
    (handle_line env_ok Paths.init ⟨false, 0⟩ "0123456789abcdef".toList
      "bufwrite dev0 16\n".toList).out = "0\n\n\n".toList := by
  decide

/-- C4 (counterexample): `write dev0 scale 100` on a device that resolves, the file
opened and written without error: the status line is `4`, the number of bytes
written, not `0`. -/
theorem write_success_status_is_not_zero :
    (handle_line env_ok Paths.init ⟨false, 0⟩ [] "write dev0 scale 100\n".toList).out
      = "4\n\n\n".toList := by
  decide

/-- C6 (failing input): the keyword `readbuf` of the help text falls into the `read`
branch: `readbuf dev0 16 1` reads the text attribute named `16` and never touches the
binary endpoint, while `bufread dev0 16 1` returns the 16 bytes of the endpoint. -/
theorem readbuf_keyword_is_attribute_read :
    keyword "readbuf".toList = .cmd .DO_READ ∧
    (handle_line env_ok Paths.init ⟨false, 0⟩ [] "readbuf dev0 16 1\n".toList).out
      = "0\n123\n".toList ∧
    (handle_line env_ok Paths.init ⟨false, 0⟩ [] "readbuf dev0 16 1\n".toList).ops
      = [Op.lookup "dev0".toList, Op.file_read "/sys/bus/iio/devices/iio:device3/16".toList] ∧
    (handle_line env_ok Paths.init ⟨false, 0⟩ [] "bufread dev0 16 1\n".toList).out
      = "16\n\n\n0123456789abcdef".toList := by
  decide

/-- C7 (counterexample): on the line `sample abc` the token `abc` is the device name;
when no device has that name the reply is -ENODEV (-19), not -EINVAL.  And a count
that is not a number but begins with a digit is accepted: `sample dev0 4abc 4` on a
device that resolves is run as `sample dev0 4 4`, with the whole buffer cycle and a
16-byte payload. -/
theorem sample_reply_is_not_einval :
    (handle_line { env_ok with find_type_by_name := no_device } Paths.init ⟨false, 0⟩ []
      "sample abc\n".toList).out = "-19\n\n\n".toList ∧
    sscanf_u "4abc".toList = some 4 ∧
    handle_line env_ok Paths.init ⟨true, 0⟩ [] "sample dev0 4abc 4\n".toList =
      ⟨"16\n\n\n0123456789abcdef".toList, dev0_paths, ⟨false, 16⟩, [],
        [Op.lookup "dev0".toList, Op.sysfs_read "enable".toList,
          Op.sysfs_write "enable".toList 0, Op.sysfs_write "length".toList 16,
          Op.sysfs_write "enable".toList 1, Op.endpoint_open, Op.endpoint_read 16,
          Op.sysfs_write "enable".toList 0],
        .next_line, []⟩ := by
  decide

/-- C8 (failing input): on an attribute file that opens and is empty
`read_devattr_stdout` prints nothing, neither the status `0` nor an empty value line;
on the content `123\n` it prints `0` and `123`. -/
theorem read_devattr_stdout_empty_file :
    (read_devattr_stdout 0 (fun _ => .opened [] false true)
      "/sys/bus/iio/devices/iio:device3".toList "scale".toList).out = [] ∧
    (read_devattr_stdout 0 (fun _ => .opened "123\n".toList false true)
      "/sys/bus/iio/devices/iio:device3".toList "scale".toList).out = "0\n123\n".toList := by
  decide


theorem toDigitsCore_length_ge (b fuel n : Nat) (ds : List Char) :
    ds.length ≤ (Nat.toDigitsCore b fuel n ds).length := by
  induction fuel generalizing n ds with
  | zero => simp [Nat.toDigitsCore]
  | succ fuel ih =>
    simp only [Nat.toDigitsCore]
    split_ifs
    · simp
    · exact le_trans (by simp) (ih _ _)

theorem toDigits_pos_ne_zero (m : Nat) (h : 0 < m) : Nat.toDigits 10 m ≠ ['0'] := by
  unfold Nat.toDigits
  simp only [Nat.toDigitsCore]
  by_cases h1 : m / 10 = 0
  · simp only [h1, if_true]
    have hm : m < 10 := by omega
    interval_cases m <;> decide
  · simp only [h1, if_false]
    intro e
    have hl := toDigitsCore_length_ge 10 m (m / 10) [Nat.digitChar (m % 10)]
    obtain ⟨k, rfl⟩ : ∃ k, m = k + 1 := ⟨m - 1, by omega⟩
    simp only [Nat.toDigitsCore] at e
    split_ifs at e
    · simp at e
    · have := toDigitsCore_length_ge 10 k ((k + 1) / 10 / 10)
        [Nat.digitChar ((k + 1) / 10 % 10), Nat.digitChar ((k + 1) % 10)]
      rw [e] at this
      simp at this

theorem REPORT_RETVAL_pos_ne_zero (n : Nat) (h : 0 < n) :
    REPORT_RETVAL (n : Int) ≠ REPORT_RETVAL 0 := by
  unfold REPORT_RETVAL
  intro e
  have e2 := List.append_cancel_right e
  have hn : ¬ ((n : Int) < 0) := by omega
  simp only [fmt_d, hn, if_false, Int.toNat_ofNat, lt_self_iff_false, Int.toNat_zero] at e2
  exact toDigits_pos_ne_zero n h e2

theorem snprintf_fits (s : Str) (h : s.length < PATH_MAX) :
    snprintf PATH_MAX s = ((s.length : Int), s) := by
  unfold snprintf
  rw [List.take_of_length_le (by omega)]

theorem write_devattr_written (errno : Nat) (fw : Str → Str → FileWrite)
    (basedir attr str : Str) (str2 : Option Str) (text : Str)
    (htext : text = (match str2 with
      | none => str ++ "\n".toList
      | some s2 => str ++ ' ' :: s2 ++ "\n".toList))
    (hfit : (basedir ++ '/' :: attr).length < PATH_MAX)
    (hw : fw (basedir ++ '/' :: attr) text = .written) :
    (write_devattr errno fw basedir attr str str2).ret = (text.length : Int) := by
  have h2 : ¬ ((PATH_MAX : Int) ≤ ((basedir ++ '/' :: attr).length : Int)) := by omega
  subst htext
  simp only [write_devattr, snprintf_fits _ hfit, ge_iff_le, h2, if_false, hw]

/-- C4 (amended): for a `write`, `dbfswrite` or `regwrite` line whose device resolves
and whose attribute file (the named attribute in the device directory, in the debug
directory, or `direct_reg_access` in the debug directory) is opened and written
without error, the reply is the status line holding the number of bytes written:
the length of the value plus one, for `regwrite` the lengths of the address and of
the value plus two.  That number is positive, so the status of a successful write is
never `0`. -/
theorem write_status_is_byte_count (env : Env) (g : Paths) (dev : DevState)
    (stdin line token sp device_name sp1 attr sp2 value sp3 : Str) (cmd : Cmd)
    (hcmd : cmd = .DO_WRITE ∨ cmd = .DO_DBFSWRITE ∨ cmd = .DO_DBFSREGWRITE)
    (ht : strtok_r " ".toList (c_str line) = (some token, sp))
    (hk : keyword token = .cmd cmd)
    (hd : strtok_r " \n".toList sp = (some device_name, sp1))
    (hres : 0 ≤ (set_dev_paths env.iio_dir env.find_type_by_name g device_name).ret)
    (ha : strtok_r " \n".toList sp1 = (some attr, sp2))
    (hv : strtok_r " \n".toList sp2 = (some value, sp3))
    (hfit : ((if cmd = .DO_WRITE
        then (set_dev_paths env.iio_dir env.find_type_by_name g device_name).g.dev_dir_name
        else (set_dev_paths env.iio_dir env.find_type_by_name g device_name).g.dbfs_dir_name)
      ++ '/' :: (if cmd = .DO_DBFSREGWRITE then DBFS_REG_ATTR else attr)).length < PATH_MAX)
    (hw : env.fopen_write
      ((if cmd = .DO_WRITE
        then (set_dev_paths env.iio_dir env.find_type_by_name g device_name).g.dev_dir_name
        else (set_dev_paths env.iio_dir env.find_type_by_name g device_name).g.dbfs_dir_name)
      ++ '/' :: (if cmd = .DO_DBFSREGWRITE then DBFS_REG_ATTR else attr))
      (if cmd = .DO_DBFSREGWRITE then attr ++ ' ' :: value ++ "\n".toList
        else value ++ "\n".toList) = .written) :
    (handle_line env g dev stdin line).out
      = REPORT_RETVAL ((if cmd = .DO_DBFSREGWRITE then attr.length + value.length + 2
          else value.length + 1 : Nat) : Int) ∧
    (handle_line env g dev stdin line).out ≠ REPORT_RETVAL 0 := by
  have hout : (handle_line env g dev stdin line).out
      = REPORT_RETVAL ((if cmd = .DO_DBFSREGWRITE then attr.length + value.length + 2
          else value.length + 1 : Nat) : Int) := by
    simp only [handle_line, ht, hk, dispatch, hd, not_lt.mpr hres, if_false, ha]
    rcases hcmd with h | h | h
    · subst h
      simp only [if_true, if_false, reduceCtorEq] at hfit hw
      simp only [execute, hv, reduceCtorEq, if_false]
      rw [write_devattr_written _ _ _ _ _ none (value ++ "\n".toList) rfl hfit hw]
      simp [String.toList]
    · subst h
      simp only [if_true, if_false, reduceCtorEq] at hfit hw
      simp only [execute, hv, reduceCtorEq, if_false]
      rw [write_devattr_written _ _ _ _ _ none (value ++ "\n".toList) rfl hfit hw]
      simp [String.toList]
    · subst h
      simp only [if_true, if_false, reduceCtorEq] at hfit hw
      simp only [execute, hv, reduceCtorEq, if_true]
      rw [write_devattr_written _ _ _ _ _ (some value) (attr ++ ' ' :: value ++ "\n".toList)
        rfl hfit hw]
      have hlen : (attr ++ ' ' :: value ++ "\n".toList).length
          = attr.length + value.length + 2 := by
        simp only [List.length_append, List.length_cons, String.toList, List.length_nil]
        omega
      rw [hlen]
  refine ⟨hout, ?_⟩
  rw [hout]
  apply REPORT_RETVAL_pos_ne_zero
  split_ifs <;> omega


/-- C4 (witness): `write dev0 scale 100` in a world where every call succeeds. -/
theorem write_status_is_byte_count_witness :
    (handle_line env_ok Paths.init ⟨false, 0⟩ [] "write dev0 scale 100\n".toList).out
      = REPORT_RETVAL 4 ∧
    (handle_line env_ok Paths.init ⟨false, 0⟩ [] "write dev0 scale 100\n".toList).out
      ≠ REPORT_RETVAL 0 :=
  write_status_is_byte_count env_ok Paths.init ⟨false, 0⟩ [] "write dev0 scale 100\n".toList
    "write".toList "dev0 scale 100\n".toList "dev0".toList "scale 100\n".toList
    "scale".toList "100\n".toList "100".toList [] .DO_WRITE
    (Or.inl rfl) (by decide) (by decide) (by decide) (by decide) (by decide) (by decide)
    (by decide) (by decide)

theorem set_dev_paths_ops_cases (iio_dir : Str) (f : Str → Str → Int) (g : Paths) (d : Str) :
    (set_dev_paths iio_dir f g d).ops = [] ∨
    (set_dev_paths iio_dir f g d).ops = [Op.lookup d] := by
  simp only [set_dev_paths]
  split_ifs <;> simp

theorem set_dev_paths_no_slot (iio_dir : Str) (f : Str → Str → Int) (g : Paths) (d : Str)
    (hneg : (set_dev_paths iio_dir f g d).ret < 0) (hslot : f d "iio:device".toList < 0) :
    (set_dev_paths iio_dir f g d).ret = -ENODEV := by
  revert hneg
  simp only [set_dev_paths, hslot, if_true]
  split_ifs <;> simp

/-- C7 (amended): for a `sample` line whose count argument is missing or is a token
that `sscanf` with `%u` does not convert (after white space and an optional sign it
does not begin with a decimal digit): when the device name resolves, the reply is the
single status -EINVAL and the tokenizer stands right after the count token (no further
token is consumed); when it does not resolve, the reply is the single status
`set_dev_paths` returned, -ENODEV if the resolver finds no slot, and the tokenizer
stands right after the device name.  Both times there is no payload, the only
operation performed is the lookup `set_dev_paths` may have made (no buffer operation,
the device and the input are untouched) and the loop goes on to the next line. -/
theorem sample_bad_count_reply (env : Env) (g : Paths) (dev : DevState)
    (stdin line token sp device_name sp1 sp2 : Str) (count : Option Str)
    (ht : strtok_r " ".toList (c_str line) = (some token, sp))
    (hk : keyword token = .cmd .DO_SAMPLE)
    (hd : strtok_r " \n".toList sp = (some device_name, sp1))
    (ha : strtok_r " \n".toList sp1 = (count, sp2))
    (hnum : ∀ attr, count = some attr → sscanf_u attr = none) :
    handle_line env g dev stdin line =
      ⟨REPORT_RETVAL
          (if (set_dev_paths env.iio_dir env.find_type_by_name g device_name).ret < 0
            then (set_dev_paths env.iio_dir env.find_type_by_name g device_name).ret
            else -EINVAL),
        (set_dev_paths env.iio_dir env.find_type_by_name g device_name).g, dev, stdin,
        (set_dev_paths env.iio_dir env.find_type_by_name g device_name).ops,
        .next_line,
        if (set_dev_paths env.iio_dir env.find_type_by_name g device_name).ret < 0
          then sp1 else sp2⟩ ∧
    ((set_dev_paths env.iio_dir env.find_type_by_name g device_name).ops = [] ∨
      (set_dev_paths env.iio_dir env.find_type_by_name g device_name).ops
        = [Op.lookup device_name]) ∧
    ((set_dev_paths env.iio_dir env.find_type_by_name g device_name).ret < 0 →
      env.find_type_by_name device_name "iio:device".toList < 0 →
      (set_dev_paths env.iio_dir env.find_type_by_name g device_name).ret = -ENODEV) := by
  refine ⟨?_, set_dev_paths_ops_cases _ _ _ _, set_dev_paths_no_slot _ _ _ _⟩
  by_cases hres : (set_dev_paths env.iio_dir env.find_type_by_name g device_name).ret < 0
  · simp only [handle_line, ht, hk, dispatch, hd, hres, if_true]
  · simp only [handle_line, ht, hk, dispatch, hd, hres, if_false, ha]
    cases count with
    | none => rfl
    | some attr => simp only [execute, hnum attr rfl]

/-- C7 (witness): `sample dev0 abc 3` on a device that resolves, the token `3` left
unconsumed, and `sample abc` when no device is called `abc`. -/
theorem sample_bad_count_reply_witness :
    handle_line env_ok Paths.init ⟨true, 0⟩ [] "sample dev0 abc 3\n".toList =
      ⟨"-22\n\n\n".toList, dev0_paths, ⟨true, 0⟩, [], [Op.lookup "dev0".toList],
        .next_line, "3\n".toList⟩ ∧
    handle_line { env_ok with find_type_by_name := no_device } Paths.init ⟨true, 0⟩ []
        "sample abc\n".toList =
      ⟨"-19\n\n\n".toList, Paths.init, ⟨true, 0⟩, [], [Op.lookup "abc".toList],
        .next_line, []⟩ :=
  ⟨(sample_bad_count_reply env_ok Paths.init ⟨true, 0⟩ [] "sample dev0 abc 3\n".toList
      "sample".toList "dev0 abc 3\n".toList "dev0".toList "abc 3\n".toList "3\n".toList
      (some "abc".toList) (by decide) (by decide) (by decide) (by decide) (by decide)).1,
    (sample_bad_count_reply { env_ok with find_type_by_name := no_device } Paths.init
      ⟨true, 0⟩ [] "sample abc\n".toList
      "sample".toList "abc\n".toList "abc".toList [] [] none
      (by decide) (by decide) (by decide) (by decide) (by decide)).1⟩

/-! ## The 1024-byte buffer of read_devattr_stdout -/

theorem read_devattr_stdout_full_buffer (errno : Nat) (fr : Str → FileRead)
    (basedir filename content : Str) (ferror feof : Bool)
    (hfit : (basedir ++ '/' :: filename).length < PATH_MAX)
    (hopen : fr (basedir ++ '/' :: filename) = .opened content ferror feof)
    (hlen : MAX_STR_LEN ≤ content.length) :
    MAX_STR_LEN ∈ (read_devattr_stdout errno fr basedir filename).buf_writes := by
  have h2 : ¬ ((PATH_MAX : Int) ≤ ((basedir ++ '/' :: filename).length : Int)) := by omega
  have hl : (content.take MAX_STR_LEN).length = MAX_STR_LEN := by
    rw [List.length_take]
    omega
  have hne : ¬ (MAX_STR_LEN = 0) := by decide
  simp only [read_devattr_stdout, snprintf_fits _ hfit, ge_iff_le, h2, if_false, hopen, hl,
    ne_eq, hne, not_false_eq_true, if_true]
  simp

/-- C10 (failing input): on an attribute file of 1024 bytes `fread` fills `buf`, `len`
is 1024 and the terminator is assigned at index 1024, one past the last element of
the 1024-byte array. -/
theorem read_devattr_stdout_writes_past_buf :
    MAX_STR_LEN = 1024 ∧
    MAX_STR_LEN ∈ (read_devattr_stdout 0 (fun _ => .opened (List.replicate 1024 'x') false false)
      "/sys/bus/iio/devices/iio:device3".toList "scale".toList).buf_writes :=
  ⟨rfl, read_devattr_stdout_full_buffer 0 _ _ _ (List.replicate 1024 'x') false false
    (by decide) rfl (by rw [List.length_replicate]; decide)⟩


/-! ## Further facts about the same functions -/

theorem c_str_no_nul (s : Str) (h : ∀ c ∈ s, c ≠ '\x00') : c_str s = s := by
  unfold c_str
  rw [List.takeWhile_eq_self_iff]
  intro c hc
  simpa using h c hc

theorem c_str_nul_end (s : Str) (h : ∀ c ∈ s, c ≠ '\x00') : c_str (s ++ ['\x00']) = s := by
  unfold c_str
  rw [List.takeWhile_append_of_pos]
  · simp
  · intro c hc
    simpa using h c hc

/-- On a non-empty attribute file shorter than 1024 bytes and free of NUL bytes
`read_devattr_stdout` prints the status line `0` and the content without its final
newline, if it has one, on a line of its own. -/
theorem read_devattr_stdout_value (errno : Nat) (fr : Str → FileRead)
    (basedir filename content : Str) (ferror feof : Bool)
    (hfit : (basedir ++ '/' :: filename).length < PATH_MAX)
    (hopen : fr (basedir ++ '/' :: filename) = .opened content ferror feof)
    (hne : content ≠ []) (hlen : content.length < MAX_STR_LEN)
    (hnul : ∀ c ∈ content, c ≠ '\x00') :
    (read_devattr_stdout errno fr basedir filename).out =
      "0\n".toList ++ (if content.getLast? = some '\n' then content.dropLast else content)
        ++ "\n".toList := by
  have h2 : ¬ ((PATH_MAX : Int) ≤ ((basedir ++ '/' :: filename).length : Int)) := by omega
  have ht : content.take MAX_STR_LEN = content := List.take_of_length_le (le_of_lt hlen)
  have hl : ¬ (content.length = 0) := by
    intro h
    exact hne (List.length_eq_zero.mp h)
  simp only [read_devattr_stdout, snprintf_fits _ hfit, ge_iff_le, h2, if_false, hopen, ht,
    ne_eq, hl, not_false_eq_true, if_true]
  rcases List.eq_nil_or_concat content with h | ⟨l, a, h⟩
  · exact absurd h hne
  · rw [List.concat_eq_append] at h
    subst h
    have hl2 : ∀ c ∈ l, c ≠ '\x00' := fun c hc => hnul c (List.mem_append_left _ hc)
    by_cases ha : a = '\n'
    · subst ha
      simp [c_str_nul_end l hl2]
    · have hg : ¬ ((l ++ [a]).getLast? = some '\n') := by simp [ha]
      simp only [hg, if_false, decide_False]
      rw [c_str_no_nul _ hnul]

/-- Whatever `iio_writebuf` returns, the status line of `bufwrite` is the `ret` that
`set_dev_paths` left. -/
theorem execute_writebuf_status (env : Env) (g : Paths) (dev : DevState) (stdin : Str)
    (ret : Int) (ops : List Op) (attr sp : Str) (val : Nat) (r : Int)
    (hval : sscanf_u attr = some val)
    (hret : (iio_writebuf env.buf env.errno dev stdin (to_int32 val)).ret = some r) :
    (execute env g dev stdin .DO_WRITEBUF ret ops attr sp).out = REPORT_RETVAL ret := by
  simp only [execute, hval, hret]

theorem set_dev_paths_step (iio_dir : Str) (f : Str → Str → Int) (g : Paths) (d : Str)
    (hfit : 0 ≤ f d "iio:device".toList →
      (fmt_buf_dir iio_dir (f d "iio:device".toList)).length < PATH_MAX) :
    (set_dev_paths iio_dir f g d).g = g ∨
    (0 ≤ f d "iio:device".toList ∧
      (set_dev_paths iio_dir f g d).g = resolved_paths iio_dir d (f d "iio:device".toList)) := by
  by_cases hmiss : strncmp_eq d g.last_device_name PATH_MAX = false
  · by_cases hslot : 0 ≤ f d "iio:device".toList
    · right
      refine ⟨hslot, ?_⟩
      rw [set_dev_paths_resolved iio_dir f g d hmiss hslot (hfit hslot)]
      rfl
    · left
      simp only [set_dev_paths, hmiss, if_true, not_le.mp hslot]
  · left
    rw [Bool.not_eq_false] at hmiss
    simp [set_dev_paths, hmiss]

/-- When every slot the resolver gives has a buffer directory shorter than PATH_MAX
(as with the 21-byte `/sys/bus/iio/devices/`), the cache after any sequence of calls is
the initial one or holds the four paths of one slot, the slot a resolver of the
sequence gave for the cached name. -/
theorem set_dev_paths_seq_consistent (iio_dir : Str)
    (calls : List (Str × (Str → Str → Int))) (g : Paths)
    (hfit : ∀ c ∈ calls, 0 ≤ c.2 c.1 "iio:device".toList →
      (fmt_buf_dir iio_dir (c.2 c.1 "iio:device".toList)).length < PATH_MAX) :
    set_dev_paths_seq iio_dir calls g = g ∨
    ∃ c ∈ calls, 0 ≤ c.2 c.1 "iio:device".toList ∧
      set_dev_paths_seq iio_dir calls g
        = resolved_paths iio_dir c.1 (c.2 c.1 "iio:device".toList) := by
  induction calls generalizing g with
  | nil => exact Or.inl rfl
  | cons c cs ih =>
    simp only [set_dev_paths_seq]
    have hcs : ∀ c2 ∈ cs, 0 ≤ c2.2 c2.1 "iio:device".toList →
        (fmt_buf_dir iio_dir (c2.2 c2.1 "iio:device".toList)).length < PATH_MAX :=
      fun c2 h2 => hfit c2 (List.mem_cons_of_mem _ h2)
    rcases ih (set_dev_paths iio_dir c.2 g c.1).g hcs with h | ⟨c2, hc2, hs, he⟩
    · rcases set_dev_paths_step iio_dir c.2 g c.1 (hfit c (List.mem_cons_self _ _)) with h1 | h1
      · exact Or.inl (h.trans h1)
      · exact Or.inr ⟨c, List.mem_cons_self _ _, h1.1, h.trans h1.2⟩
    · exact Or.inr ⟨c2, List.mem_cons_of_mem _ hc2, hs, he⟩

/-- A call that fails because the resolver finds no slot leaves the cached name and
the four paths as they were. -/
theorem set_dev_paths_enodev_unchanged (iio_dir : Str) (f : Str → Str → Int) (g : Paths)
    (d : Str) (h : (set_dev_paths iio_dir f g d).ret = -ENODEV) :
    (set_dev_paths iio_dir f g d).g = g := by
  revert h
  simp only [set_dev_paths]
  split_ifs <;> simp [ENODEV, EFAULT]

/-! ## set_dev_paths with a base directory that leaves room for every slot -/

theorem toDigitsCore_length_le (fuel n k : Nat) (ds : List Char)
    (hn : n < 10 ^ k) (hk : 1 ≤ k) :
    (Nat.toDigitsCore 10 fuel n ds).length ≤ ds.length + k := by
  induction fuel generalizing n k ds with
  | zero => simp [Nat.toDigitsCore]
  | succ fuel ih =>
    simp only [Nat.toDigitsCore]
    split_ifs with h0
    · simp only [List.length_cons]
      omega
    · obtain ⟨j, rfl⟩ : ∃ j, k = j + 1 := ⟨k - 1, by omega⟩
      have hj : 1 ≤ j := by
        rcases Nat.eq_zero_or_pos j with h | h
        · subst h
          exfalso
          apply h0
          simp only [zero_add, pow_one] at hn
          exact Nat.div_eq_of_lt hn
        · exact h
      have hdiv : n / 10 < 10 ^ j := by
        rw [Nat.div_lt_iff_lt_mul (by decide)]
        rw [pow_succ] at hn
        exact hn
      have := ih (n / 10) j (Nat.digitChar (n % 10) :: ds) hdiv hj
      simp only [List.length_cons] at this
      omega

theorem fmt_d_length_le (n : Int) (h0 : 0 ≤ n) (h1 : n < 2 ^ 31) : (fmt_d n).length ≤ 10 := by
  have hneg : ¬ (n < 0) := not_lt.mpr h0
  simp only [fmt_d, hneg, if_false]
  have hlt : n.toNat < 10 ^ 10 := by omega
  have := toDigitsCore_length_le (n.toNat + 1) n.toNat 10 [] hlt (by decide)
  simpa [Nat.toDigits] using this

theorem resolved_paths_eq_slot_paths (iio_dir name : Str) (n : Int)
    (hdir : iio_dir.length + 27 < PATH_MAX) (h0 : 0 ≤ n) (h1 : n < 2 ^ 31) :
    resolved_paths iio_dir name n = slot_paths iio_dir name n := by
  have hd := fmt_d_length_le n h0 h1
  have hp : PATH_MAX = 4096 := rfl
  unfold resolved_paths slot_paths
  rw [List.take_of_length_le, List.take_of_length_le, List.take_of_length_le,
    List.take_of_length_le]
  · simp only [fmt_buffer_access, List.length_append, String.toList, List.length_cons,
      List.length_nil]
    omega
  · simp only [fmt_dbfs_dir, List.length_append, String.toList, List.length_cons,
      List.length_nil]
    omega
  · simp only [fmt_buf_dir, List.length_append, String.toList, List.length_cons,
      List.length_nil]
    omega
  · simp only [fmt_dev_dir, List.length_append, String.toList, List.length_cons,
      List.length_nil]
    omega

theorem fmt_buf_dir_fits (iio_dir : Str) (n : Int)
    (hdir : iio_dir.length + 27 < PATH_MAX) (h0 : 0 ≤ n) (h1 : n < 2 ^ 31) :
    (fmt_buf_dir iio_dir n).length < PATH_MAX := by
  have hd := fmt_d_length_le n h0 h1
  simp only [fmt_buf_dir, List.length_append, String.toList, List.length_cons,
    List.length_nil]
  omega

theorem set_dev_paths_failure_unchanged (iio_dir : Str) (f : Str → Str → Int) (g : Paths)
    (d : Str) (hdir : iio_dir.length + 27 < PATH_MAX)
    (hint : f d "iio:device".toList < 2 ^ 31)
    (hneg : (set_dev_paths iio_dir f g d).ret < 0) :
    (set_dev_paths iio_dir f g d).g = g := by
  by_cases hmiss : strncmp_eq d g.last_device_name PATH_MAX = false
  · by_cases hslot : 0 ≤ f d "iio:device".toList
    · exfalso
      rw [set_dev_paths_resolved iio_dir f g d hmiss hslot
        (fmt_buf_dir_fits iio_dir _ hdir hslot hint)] at hneg
      exact absurd hneg (lt_irrefl 0)
    · simp only [set_dev_paths, hmiss, if_true, not_le.mp hslot]
  · rw [Bool.not_eq_false] at hmiss
    simp [set_dev_paths, hmiss]

/-- C9 (amended): with a base directory of at most 4068 bytes (the program's
`/sys/bus/iio/devices/` has 21) and resolver results in the range of `int`, after
every sequence of calls from the initial cache the cache is the initial one or holds
the four paths, in full, of one and the same slot, the slot a resolver of the sequence
gave for the cached name; and every call of the sequence that fails leaves the cached
name and all four paths as they were. -/
theorem set_dev_paths_cache_consistent (iio_dir : Str)
    (calls : List (Str × (Str → Str → Int)))
    (hdir : iio_dir.length + 27 < PATH_MAX)
    (hint : ∀ c ∈ calls, c.2 c.1 "iio:device".toList < 2 ^ 31) :
    (set_dev_paths_seq iio_dir calls Paths.init = Paths.init ∨
      ∃ c ∈ calls, 0 ≤ c.2 c.1 "iio:device".toList ∧
        set_dev_paths_seq iio_dir calls Paths.init
          = slot_paths iio_dir c.1 (c.2 c.1 "iio:device".toList)) ∧
    (∀ pre c post, calls = pre ++ c :: post →
      (set_dev_paths iio_dir c.2 (set_dev_paths_seq iio_dir pre Paths.init) c.1).ret < 0 →
      (set_dev_paths iio_dir c.2 (set_dev_paths_seq iio_dir pre Paths.init) c.1).g
        = set_dev_paths_seq iio_dir pre Paths.init) := by
  constructor
  · have hfit : ∀ c ∈ calls, 0 ≤ c.2 c.1 "iio:device".toList →
        (fmt_buf_dir iio_dir (c.2 c.1 "iio:device".toList)).length < PATH_MAX :=
      fun c hc h0 => fmt_buf_dir_fits iio_dir _ hdir h0 (hint c hc)
    rcases set_dev_paths_seq_consistent iio_dir calls Paths.init hfit with h | ⟨c, hc, h0, he⟩
    · exact Or.inl h
    · refine Or.inr ⟨c, hc, h0, ?_⟩
      rw [he]
      exact resolved_paths_eq_slot_paths iio_dir c.1 _ hdir h0 (hint c hc)
  · intro pre c post hcalls hneg
    apply set_dev_paths_failure_unchanged iio_dir c.2 _ c.1 hdir _ hneg
    apply hint
    rw [hcalls]
    simp

/-- C9 (witness): the program's base directory; `nodev` fails, `dev0` resolves as
slot 3, `nodev` fails again: the cache holds the four paths of slot 3. -/
theorem set_dev_paths_cache_consistent_witness :
    set_dev_paths_seq sys_iio_dir
      [("nodev".toList, no_device), ("dev0".toList, some_devices), ("nodev".toList, no_device)]
      Paths.init = slot_paths sys_iio_dir "dev0".toList 3 ∧
    slot_paths sys_iio_dir "dev0".toList 3 = dev0_paths ∧
    ((set_dev_paths_seq sys_iio_dir
        [("nodev".toList, no_device), ("dev0".toList, some_devices),
          ("nodev".toList, no_device)] Paths.init = Paths.init ∨
      ∃ c ∈ [("nodev".toList, no_device), ("dev0".toList, some_devices),
          ("nodev".toList, no_device)], 0 ≤ c.2 c.1 "iio:device".toList ∧
        set_dev_paths_seq sys_iio_dir
          [("nodev".toList, no_device), ("dev0".toList, some_devices),
            ("nodev".toList, no_device)] Paths.init
          = slot_paths sys_iio_dir c.1 (c.2 c.1 "iio:device".toList)) ∧
    (∀ pre c post,
      [("nodev".toList, no_device), ("dev0".toList, some_devices),
        ("nodev".toList, no_device)] = pre ++ c :: post →
      (set_dev_paths sys_iio_dir c.2 (set_dev_paths_seq sys_iio_dir pre Paths.init) c.1).ret < 0 →
      (set_dev_paths sys_iio_dir c.2 (set_dev_paths_seq sys_iio_dir pre Paths.init) c.1).g
        = set_dev_paths_seq sys_iio_dir pre Paths.init)) :=
  ⟨by decide, by decide,
    set_dev_paths_cache_consistent sys_iio_dir
      [("nodev".toList, no_device), ("dev0".toList, some_devices), ("nodev".toList, no_device)]
      (by decide)
      (by
        intro c hc
        simp only [List.mem_cons, List.mem_singleton, List.not_mem_nil, or_false] at hc
        rcases hc with h | h | h <;> subst h <;> decide)⟩


end IioCmdsrv
